import Mathlib

/-!
# Hotspot record page (`src/recordpage.cpp`)

A shallow embedding of the record page of Hotspot: the widget properties the
page reads and writes are fields of one record, every slot and connected
lambda is a function on that record, and calls that leave the page (the perf
recorder, the `openFile` signal, the background process listing, the timer)
are appended to a log in call order.

Signals that the page itself triggers are delivered synchronously, as Qt does
for direct connections: `setChecked` on the start button runs
`onStartRecordingButtonClicked` when the checked state changes, and `setText`
on the output file requester runs `onOutputFileNameChanged` when the text
changes.
-/

namespace Hotspot

/-! ## Strings, URLs, model indexes -/

/-- A `QString`, as its sequence of characters. -/
abbrev QString := List Char

/-- Both `QStringLiteral("...")` and `tr("...")` (no translation installed). -/
def tr (s : String) : QString := s.toList

/-- The method `QString::endsWith`. -/
def endsWith (s ext : QString) : Bool := ext.isSuffixOf s

/-- The method `QString::arg` for templates whose only place marker is `%1`: every
occurrence of the marker is replaced by the argument. -/
def arg : QString → QString → QString
  | [], _ => []
  | '%' :: '1' :: rest, a => a ++ arg rest a
  | c :: rest, a => c :: arg rest a

/-- A `QUrl`, as far as `toLocalFile` looks at it. -/
structure QUrl where
  isLocalFile : Bool
  path : QString
  deriving DecidableEq, Repr

/-- The method `QUrl::toLocalFile`: the path of a local file URL, empty otherwise. -/
def QUrl.toLocalFile (u : QUrl) : QString :=
  if u.isLocalFile then u.path else []

/-- A `QModelIndex` of the process table together with the string that
`data(ProcessModel::PIDRole).toString()` yields for it. -/
structure ModelIndex where
  row : Nat
  column : Int
  pid : QString
  deriving DecidableEq, Repr

/-- Modelled from the spec: `ProcData` of `processmodel.h`, a process entry
with identifier, display name and state. -/
structure ProcData where
  pid : QString
  name : QString
  state : QString
  deriving DecidableEq, Repr

/-- Modelled from the spec: `enum RecordType` of `recordpage.h`, whose first
enumerator `LaunchApplication` has value 0. -/
def LaunchApplication : Int := 0

/-- Modelled from the spec: `enum RecordType` of `recordpage.h`, whose second
enumerator `AttachToProcess` has value 1. -/
def AttachToProcess : Int := 1

/-! ## Combo boxes -/

/-- A `QComboBox`: its items (text and user data) and the current index. -/
structure ComboBox (α : Type) where
  items : List (QString × α)
  currentIndex : Int
  deriving DecidableEq, Repr

/-- The method `QComboBox::addItem`: appends; the first item of an empty box becomes
current. -/
def ComboBox.addItem {α : Type} (c : ComboBox α) (text : QString) (data : α) : ComboBox α :=
  { items := c.items ++ [(text, data)]
    currentIndex := if c.items.isEmpty then 0 else c.currentIndex }

/-- The method `QComboBox::setCurrentIndex`. -/
def ComboBox.setCurrentIndex {α : Type} (c : ComboBox α) (index : Int) : ComboBox α :=
  { c with currentIndex := index }

/-- The method `QComboBox::currentData`: the data of the current item, `none` standing
for the invalid `QVariant` of an index without item. -/
def ComboBox.currentData {α : Type} (c : ComboBox α) : Option α :=
  if 0 ≤ c.currentIndex then (c.items[c.currentIndex.toNat]?).map Prod.snd else none

/-! ## Processor devices (Solid) -/

/-- The flags of `Solid::Processor::InstructionSet`. -/
inductive InstructionSet
  | IntelMmx | IntelSse | IntelSse2 | IntelSse3 | IntelSsse3
  | IntelSse4 | IntelSse41 | IntelSse42 | Amd3DNow | AltiVec
  deriving DecidableEq, Repr

/-- A `Solid::Device`: `processor` is the `Solid::Processor` interface when
the device has one, given by its instruction sets. -/
structure Device where
  processor : Option (List InstructionSet)
  deriving DecidableEq, Repr

/-- The method `QFlags::testFlag` on the instruction sets of a processor. -/
def testFlag (instructionSets : List InstructionSet) (f : InstructionSet) : Bool :=
  instructionSets.contains f

/-- The function `isIntel` (lines 51-69). `list[0]` is evaluated first; on an empty list
that read is out of range and the function yields `none`. -/
def isIntel (list : List Device) : Option Bool :=
  match list[0]? with
  | none => none
  | some device =>
    if list.isEmpty || !device.processor.isSome then
      some false
    else
      let instructionSets := device.processor.getD []
      some (testFlag instructionSets .IntelMmx ||
            testFlag instructionSets .IntelSse ||
            testFlag instructionSets .IntelSse2 ||
            testFlag instructionSets .IntelSse3 ||
            testFlag instructionSets .IntelSsse3 ||
            testFlag instructionSets .IntelSse4 ||
            testFlag instructionSets .IntelSse41 ||
            testFlag instructionSets .IntelSse42)

/-! ## The page -/

/-- A call that leaves the page. -/
inductive Effect
  | recordLaunch (perfOptions : List QString) (outputPath exePath : QString)
      (exeOptions : List QString) (workingDirectory : QString)
  | recordAttach (perfOptions : List QString) (outputPath : QString) (pids : List QString)
  | stopRecording
  | openFile (path : QString)
  | processList (known : List ProcData)
  | singleShot (msec : Nat)
  deriving DecidableEq, Repr

/-- What the page asks of Qt, KDE and the file system. -/
structure Env where
  -- KUrlRequester::url() for a requester showing the given text
  url : QString → QUrl
  -- KShell::splitArgs
  splitArgs : QString → List QString
  -- QStandardPaths::findExecutable
  findExecutable : QString → QString
  -- QFileInfo::exists
  fileExists : QString → Bool
  -- QFileInfo::isFile
  isFile : QString → Bool
  -- QFileInfo::isDir
  isDir : QString → Bool
  -- QFileInfo::isWritable
  isWritable : QString → Bool
  -- QFileInfo::isExecutable
  isExecutable : QString → Bool
  -- QFileInfo::path
  path : QString → QString
  -- QFileInfo::absolutePath
  absolutePath : QString → QString
  -- QFileInfo::absoluteFilePath
  absoluteFilePath : QString → QString
  -- QDir::currentPath
  currentPath : QString
  -- QDir::separator
  separator : Char
  -- ProcessModel::mergeProcesses: from the known processes, the listed ones
  -- and the selection of the table, the merged processes and the selection
  -- the table is left with
  mergeProcesses : List ProcData → List ProcData → List ModelIndex →
    List ProcData × List ModelIndex

/-- The widgets of `Ui::RecordPage` and the members of `RecordPage`, as far
as the page reads or writes them. A field ending in `Visible` holds what the
last `setVisible`, `show` or `hide` on the widget asked for. The start button
is a checkable button. -/
structure RecordPage where
  applicationLabelVisible : Bool
  applicationNameVisible : Bool
  applicationParamsLabelVisible : Bool
  applicationParametersBoxVisible : Bool
  workingDirectoryLabelVisible : Bool
  workingDirectoryVisible : Bool
  processesFilterLabelVisible : Bool
  processesFilterBoxVisible : Bool
  processesLabelVisible : Bool
  processesTableViewVisible : Bool
  startRecordingButtonEnabled : Bool
  startRecordingButtonChecked : Bool
  startRecordingButtonIcon : QString
  startRecordingButtonText : QString
  viewPerfRecordResultsButtonEnabled : Bool
  applicationRecordErrorMessageText : QString
  applicationRecordErrorMessageVisible : Bool
  perfResultsTextEditText : QString
  perfResultsTextEditCursor : Nat
  perfResultsTextEditVisible : Bool
  perfResultsLabelVisible : Bool
  applicationNameText : QString
  applicationParametersBoxText : QString
  workingDirectoryText : QString
  workingDirectoryPlaceholderText : QString
  outputFileText : QString
  eventTypeBoxText : QString
  recordTypeComboBox : ComboBox Int
  callGraphComboBox : ComboBox QString
  selectedIndexes : List ModelIndex
  processes : List ProcData
  windowTitle : QString
  m_resultsFile : QString
  log : List Effect
  deriving DecidableEq, Repr

/-! ## Helpers of the anonymous namespace -/

/-- The helper `updateStartRecordingButtonState` (lines 71-78). -/
def updateStartRecordingButtonState (ui : RecordPage) : RecordPage :=
  if ui.selectedIndexes.length > 0 then
    { ui with startRecordingButtonEnabled := true }
  else
    { ui with startRecordingButtonEnabled := false }

/-- The helper `setRecordApplicationVisibility` (lines 80-92). -/
def setRecordApplicationVisibility (ui : RecordPage) (visible : Bool) : RecordPage :=
  let ui := { ui with
    applicationLabelVisible := visible
    applicationNameVisible := visible
    applicationParamsLabelVisible := visible
    applicationParametersBoxVisible := visible
    workingDirectoryLabelVisible := visible
    workingDirectoryVisible := visible }
  if visible then
    { ui with startRecordingButtonEnabled := visible }
  else
    ui

/-- The helper `setRecordProcessesVisibility` (lines 94-104). -/
def setRecordProcessesVisibility (ui : RecordPage) (visible : Bool) : RecordPage :=
  let ui := { ui with
    processesFilterLabelVisible := visible
    processesFilterBoxVisible := visible
    processesLabelVisible := visible
    processesTableViewVisible := visible }
  if visible then
    updateStartRecordingButtonState ui
  else
    ui

/-! ## Slots -/

/-- The slot `RecordPage::showRecordPage` (lines 220-229). -/
def RecordPage.showRecordPage (page : RecordPage) : RecordPage :=
  { page with
    windowTitle := tr "Hotspot - Record"
    m_resultsFile := []
    applicationRecordErrorMessageVisible := false
    perfResultsTextEditText := []
    perfResultsTextEditCursor := 0
    perfResultsTextEditVisible := false
    perfResultsLabelVisible := false
    viewPerfRecordResultsButtonEnabled := false }

/-- The options assembled at lines 238-247 from the current data of the call
graph box (an invalid variant converts to the empty string) and the text of
the event type box. -/
def perfOptions (page : RecordPage) : List QString :=
  let perfOptions : List QString := []
  let callGraphOption := page.callGraphComboBox.currentData.getD []
  let perfOptions :=
    if !callGraphOption.isEmpty then perfOptions ++ [tr "--call-graph", callGraphOption]
    else perfOptions
  let perfOptions :=
    if !page.eventTypeBoxText.isEmpty then perfOptions ++ [tr "--event", page.eventTypeBoxText]
    else perfOptions
  perfOptions

/-- The loop of lines 258-262 over the selected indexes. -/
def selectedPids (selectedIndexes : List ModelIndex) : List QString :=
  selectedIndexes.foldl
    (fun pids item => if item.column = 0 then pids ++ [item.pid] else pids) []

/-- The slot `RecordPage::onStartRecordingButtonClicked` (lines 231-271), connected to
`toggled` of the start button. -/
def RecordPage.onStartRecordingButtonClicked (env : Env) (page : RecordPage)
    (checked : Bool) : RecordPage :=
  if checked then
    let page := page.showRecordPage
    let page := { page with
      startRecordingButtonIcon := tr "media-playback-stop"
      startRecordingButtonText := tr "Stop Recording" }
    let perfOptions := perfOptions page
    if page.recordTypeComboBox.currentData = some LaunchApplication then
      { page with log := page.log ++
          [Effect.recordLaunch perfOptions (env.url page.outputFileText).toLocalFile
            (env.url page.applicationNameText).toLocalFile
            (env.splitArgs page.applicationParametersBoxText)
            (env.url page.workingDirectoryText).toLocalFile] }
    else
      let pids := selectedPids page.selectedIndexes
      { page with log := page.log ++
          [Effect.recordAttach perfOptions (env.url page.outputFileText).toLocalFile pids] }
  else
    { page with
      startRecordingButtonIcon := tr "media-playback-start"
      startRecordingButtonText := tr "Start Recording"
      log := page.log ++ [Effect.stopRecording] }

/-- The call `ui->startRecordingButton->setChecked(checked)`: nothing happens when the
button already has that state, otherwise the state changes and `toggled`
runs the connected slot. -/
def RecordPage.setChecked (env : Env) (page : RecordPage) (checked : Bool) : RecordPage :=
  if page.startRecordingButtonChecked = checked then page
  else
    RecordPage.onStartRecordingButtonClicked env
      { page with startRecordingButtonChecked := checked } checked

/-- The slot `RecordPage::onApplicationNameChanged` (lines 273-295). -/
def RecordPage.onApplicationNameChanged (env : Env) (page : RecordPage)
    (filePath : QString) : RecordPage :=
  let application := (env.url page.applicationNameText).toLocalFile
  let application :=
    if !env.fileExists application then env.findExecutable filePath else application
  if !env.fileExists application then
    { page with
      applicationRecordErrorMessageText := arg (tr "Application file cannot be found: %1") filePath
      applicationRecordErrorMessageVisible := true }
  else if !env.isFile application then
    { page with
      applicationRecordErrorMessageText := arg (tr "Application file is not valid: %1") filePath
      applicationRecordErrorMessageVisible := true }
  else if !env.isExecutable application then
    { page with
      applicationRecordErrorMessageText :=
        arg (tr "Application file is not executable: %1") filePath
      applicationRecordErrorMessageVisible := true }
  else
    let page :=
      if page.workingDirectoryText.isEmpty then
        { page with workingDirectoryPlaceholderText := env.path application }
      else page
    { page with applicationRecordErrorMessageVisible := false }

/-- The slot `RecordPage::onWorkingDirectoryNameChanged` (lines 297-312). -/
def RecordPage.onWorkingDirectoryNameChanged (env : Env) (page : RecordPage)
    (folderPath : QString) : RecordPage :=
  let folder := (env.url page.workingDirectoryText).toLocalFile
  if !env.fileExists folder then
    { page with
      applicationRecordErrorMessageText :=
        arg (tr "Working directory folder cannot be found: %1") folderPath
      applicationRecordErrorMessageVisible := true }
  else if !env.isDir folder then
    { page with
      applicationRecordErrorMessageText :=
        arg (tr "Working directory folder is not valid: %1") folderPath
      applicationRecordErrorMessageVisible := true }
  else if !env.isWritable folder then
    { page with
      applicationRecordErrorMessageText :=
        arg (tr "Working directory folder is not writable: %1") folderPath
      applicationRecordErrorMessageVisible := true }
  else
    { page with applicationRecordErrorMessageVisible := false }

/-- The slot `RecordPage::onViewPerfRecordResultsButtonClicked` (lines 314-317). -/
def RecordPage.onViewPerfRecordResultsButtonClicked (page : RecordPage) : RecordPage :=
  { page with log := page.log ++ [Effect.openFile page.m_resultsFile] }

/-- The slot `RecordPage::onOutputFileNameChanged` (lines 319-339); the argument is not
used. -/
def RecordPage.onOutputFileNameChanged (env : Env) (page : RecordPage)
    (_filePath : QString) : RecordPage :=
  let perfDataExtension := tr ".data"
  let file := (env.url page.outputFileText).toLocalFile
  let folder := env.absolutePath file
  if !env.fileExists folder then
    { page with
      applicationRecordErrorMessageText :=
        arg (tr "Output file directory folder cannot be found: %1") (env.path folder)
      applicationRecordErrorMessageVisible := true }
  else if !env.isDir folder then
    { page with
      applicationRecordErrorMessageText :=
        arg (tr "Output file directory folder is not valid: %1") (env.path folder)
      applicationRecordErrorMessageVisible := true }
  else if !env.isWritable folder then
    { page with
      applicationRecordErrorMessageText :=
        arg (tr "Output file directory folder is not writable: %1") (env.path folder)
      applicationRecordErrorMessageVisible := true }
  else if !endsWith (env.absoluteFilePath file) perfDataExtension then
    { page with
      applicationRecordErrorMessageText :=
        arg (tr "Output file must end with %1") perfDataExtension
      applicationRecordErrorMessageVisible := true }
  else
    { page with applicationRecordErrorMessageVisible := false }

/-- The call `ui->outputFile->setText(text)` on the connected page: nothing happens
when the requester already shows that text, otherwise the text changes and
`textChanged` runs the connected slot. -/
def RecordPage.setOutputFileText (env : Env) (page : RecordPage) (text : QString) : RecordPage :=
  if page.outputFileText = text then page
  else RecordPage.onOutputFileNameChanged env { page with outputFileText := text } text

/-- The slot `RecordPage::onOutputFileNameSelected` (lines 341-348). -/
def RecordPage.onOutputFileNameSelected (env : Env) (page : RecordPage)
    (filePath : QString) : RecordPage :=
  let perfDataExtension := tr ".data"
  if !endsWith filePath perfDataExtension then
    page.setOutputFileText env (filePath ++ perfDataExtension)
  else page

/-- The slot `RecordPage::onOutputFileUrlChanged` (lines 350-353). -/
def RecordPage.onOutputFileUrlChanged (env : Env) (page : RecordPage)
    (fileUrl : QUrl) : RecordPage :=
  page.onOutputFileNameSelected env fileUrl.toLocalFile

/-- The slot `RecordPage::updateProcesses` (lines 355-358): starts the background listing. -/
def RecordPage.updateProcesses (page : RecordPage) : RecordPage :=
  { page with log := page.log ++ [Effect.processList page.processes] }

/-- The slot `RecordPage::updateProcessesFinished` (lines 360-365); `result` is
`m_watcher->result()`. -/
def RecordPage.updateProcessesFinished (env : Env) (page : RecordPage)
    (result : List ProcData) : RecordPage :=
  let merged := env.mergeProcesses page.processes result page.selectedIndexes
  let page := { page with processes := merged.1, selectedIndexes := merged.2 }
  let page := updateStartRecordingButtonState page
  { page with log := page.log ++ [Effect.singleShot 1000] }

/-! ## Lambdas connected in the constructor -/

/-- The lambda connected to `currentIndexChanged` of the record type box
(lines 140-154). -/
def RecordPage.currentIndexChanged (page : RecordPage) (index : Int) : RecordPage :=
  if index = LaunchApplication then
    let page := setRecordApplicationVisibility page true
    setRecordProcessesVisibility page false
  else if index = AttachToProcess then
    let page := setRecordProcessesVisibility page true
    setRecordApplicationVisibility page false
  else
    page

/-- The lambda connected to `PerfRecord::recordingFinished` (lines 164-170). -/
def RecordPage.recordingFinished (env : Env) (page : RecordPage)
    (fileLocation : QString) : RecordPage :=
  let page := page.setChecked env false
  { page with
    applicationRecordErrorMessageVisible := false
    m_resultsFile := fileLocation
    viewPerfRecordResultsButtonEnabled := true }

/-- The lambda connected to `PerfRecord::recordingFailed` (lines 172-179). -/
def RecordPage.recordingFailed (env : Env) (page : RecordPage)
    (errorMessage : QString) : RecordPage :=
  let page := page.setChecked env false
  { page with
    applicationRecordErrorMessageText := errorMessage
    applicationRecordErrorMessageVisible := true
    viewPerfRecordResultsButtonEnabled := false }

/-- The lambda connected to `PerfRecord::recordingOutput` (lines 181-187): the text is
inserted at the cursor, which then moves to the end. -/
def RecordPage.recordingOutput (page : RecordPage) (outputMessage : QString) : RecordPage :=
  let text := page.perfResultsTextEditText.take page.perfResultsTextEditCursor ++ outputMessage ++
    page.perfResultsTextEditText.drop page.perfResultsTextEditCursor
  { page with
    perfResultsTextEditText := text
    perfResultsTextEditVisible := true
    perfResultsLabelVisible := true
    perfResultsTextEditCursor := text.length }

/-- The lambda connected to `clicked` of the process table (lines 202-205). -/
def RecordPage.clicked (page : RecordPage) : RecordPage :=
  updateStartRecordingButtonState page

/-! ## Constructor -/

/-- The constructor `RecordPage::RecordPage` (lines 107-216), named `construct` here
because the record of the page has the name of the class. `form` is the widget tree
that `ui->setupUi(this)` builds (`ui_recordpage.h` is generated from the form
file); `devices` is what Solid lists as processors. The texts set before the
`connect` calls reach no slot. The result is `none` when `isIntel` reads out
of range. -/
def RecordPage.construct (env : Env) (devices : List Device) (form : RecordPage) :
    Option RecordPage := do
  let ui := form
  let ui := { ui with workingDirectoryText := env.currentPath }
  let ui := { ui with outputFileText := env.currentPath ++ [env.separator] ++ tr "perf.data" }
  let ui := { ui with recordTypeComboBox :=
    ui.recordTypeComboBox.addItem (tr "Launch Application") LaunchApplication }
  let ui := { ui with recordTypeComboBox :=
    ui.recordTypeComboBox.addItem (tr "Attach To Process(es)") AttachToProcess }
  let ui := { ui with callGraphComboBox := ui.callGraphComboBox.addItem (tr "None") [] }
  let ui := { ui with callGraphComboBox := ui.callGraphComboBox.addItem (tr "DWARF") (tr "dwarf") }
  let ui := { ui with callGraphComboBox :=
    ui.callGraphComboBox.addItem (tr "Frame Pointer") (tr "fp") }
  let intel ← isIntel devices
  let ui :=
    if intel then
      { ui with callGraphComboBox :=
        ui.callGraphComboBox.addItem (tr "Last Branch Record") (tr "lbr") }
    else ui
  let ui := { ui with callGraphComboBox := ui.callGraphComboBox.setCurrentIndex 1 }
  let ui := { ui with processes := [], selectedIndexes := [] }
  let ui := setRecordApplicationVisibility ui true
  let ui := setRecordProcessesVisibility ui false
  let ui := ui.updateProcesses
  return ui.showRecordPage

/-! ## Events reaching the connected page -/

/-- What can happen to the constructed page: each event runs the slot or
lambda that the constructor connected to it. -/
inductive Event
  | recordTypeSelected (index : Int)
  | processTableClicked (selection : List ModelIndex)
  | processListFinished (result : List ProcData)
  | processListTimeout
  | startButtonToggled
  | recordingFinished (fileLocation : QString)
  | recordingFailed (errorMessage : QString)
  | recordingOutput (outputMessage : QString)
  | applicationNameEdited (text : QString)
  | workingDirectoryEdited (text : QString)
  | outputFileEdited (text : QString)
  | outputFileNameSelected (filePath : QString)
  | outputFileUrlSelected (fileUrl : QUrl)
  | viewResultsClicked
  deriving DecidableEq, Repr

/-- One event on the connected page. A widget changes its own property first
and then emits: the record type box its current index, the table its
selection, the start button its checked state, a requester its text. -/
def RecordPage.handle (env : Env) (page : RecordPage) : Event → RecordPage
  | .recordTypeSelected index =>
    RecordPage.currentIndexChanged
      { page with recordTypeComboBox := page.recordTypeComboBox.setCurrentIndex index } index
  | .processTableClicked selection =>
    RecordPage.clicked { page with selectedIndexes := selection }
  | .processListFinished result => page.updateProcessesFinished env result
  | .processListTimeout => page.updateProcesses
  | .startButtonToggled => page.setChecked env (!page.startRecordingButtonChecked)
  | .recordingFinished fileLocation => page.recordingFinished env fileLocation
  | .recordingFailed errorMessage => page.recordingFailed env errorMessage
  | .recordingOutput outputMessage => page.recordingOutput outputMessage
  | .applicationNameEdited text =>
    RecordPage.onApplicationNameChanged env { page with applicationNameText := text } text
  | .workingDirectoryEdited text =>
    RecordPage.onWorkingDirectoryNameChanged env { page with workingDirectoryText := text } text
  | .outputFileEdited text => page.setOutputFileText env text
  | .outputFileNameSelected filePath => page.onOutputFileNameSelected env filePath
  | .outputFileUrlSelected fileUrl => page.onOutputFileUrlChanged env fileUrl
  | .viewResultsClicked => page.onViewPerfRecordResultsButtonClicked

/-- The pages reachable from the constructor, run on a form whose record type
box has no items of its own, by any sequence of events. -/
inductive Reachable (env : Env) : RecordPage → Prop
  | constructed (devices : List Device) (form page : RecordPage) :
      form.recordTypeComboBox.items = [] →
      RecordPage.construct env devices form = some page → Reachable env page
  | handled (page : RecordPage) (event : Event) :
      Reachable env page → Reachable env (page.handle env event)

/-! ## Views used by the statements -/

/-- Visibility of the launch group: application label and name, parameters
label and box, working directory label and field. -/
def launchGroup (page : RecordPage) : List Bool :=
  [page.applicationLabelVisible, page.applicationNameVisible,
   page.applicationParamsLabelVisible, page.applicationParametersBoxVisible,
   page.workingDirectoryLabelVisible, page.workingDirectoryVisible]

/-- Visibility of the attach group: process filter label and box, processes
label and table. -/
def attachGroup (page : RecordPage) : List Bool :=
  [page.processesFilterLabelVisible, page.processesFilterBoxVisible,
   page.processesLabelVisible, page.processesTableViewVisible]

/-- The folder part of an absolute path: what precedes its last slash. -/
def parentFolder (file : QString) : QString :=
  ((file.reverse.dropWhile (fun c => c != '/')).drop 1).reverse

/-- A file system without any file, for concrete runs. -/
def emptyEnv : Env where
  url := fun text => { isLocalFile := true, path := text }
  splitArgs := fun text => if text.isEmpty then [] else [text]
  findExecutable := fun _ => []
  fileExists := fun _ => false
  isFile := fun _ => false
  isDir := fun _ => false
  isWritable := fun _ => false
  isExecutable := fun _ => false
  path := parentFolder
  absolutePath := parentFolder
  absoluteFilePath := fun file => file
  currentPath := tr "/tmp"
  separator := '/'
  mergeProcesses := fun _ result selection => (result, selection)

/-- A file system whose only entry is the writable folder "/tmp", for
concrete runs. -/
def tmpEnv : Env :=
  { emptyEnv with
    fileExists := fun file => file == tr "/tmp"
    isDir := fun file => file == tr "/tmp"
    isWritable := fun file => file == tr "/tmp" }

/-- A form with empty boxes and fields, every widget shown and enabled, for
concrete runs. -/
def blankForm : RecordPage where
  applicationLabelVisible := true
  applicationNameVisible := true
  applicationParamsLabelVisible := true
  applicationParametersBoxVisible := true
  workingDirectoryLabelVisible := true
  workingDirectoryVisible := true
  processesFilterLabelVisible := true
  processesFilterBoxVisible := true
  processesLabelVisible := true
  processesTableViewVisible := true
  startRecordingButtonEnabled := true
  startRecordingButtonChecked := false
  startRecordingButtonIcon := tr "media-playback-start"
  startRecordingButtonText := tr "Start Recording"
  viewPerfRecordResultsButtonEnabled := true
  applicationRecordErrorMessageText := []
  applicationRecordErrorMessageVisible := true
  perfResultsTextEditText := []
  perfResultsTextEditCursor := 0
  perfResultsTextEditVisible := true
  perfResultsLabelVisible := true
  applicationNameText := []
  applicationParametersBoxText := []
  workingDirectoryText := []
  workingDirectoryPlaceholderText := []
  outputFileText := []
  eventTypeBoxText := []
  recordTypeComboBox := { items := [], currentIndex := -1 }
  callGraphComboBox := { items := [], currentIndex := -1 }
  selectedIndexes := []
  processes := []
  windowTitle := []
  m_resultsFile := []
  log := []

/-- One processor with Intel instruction sets, for concrete runs. -/
def intelDevices : List Device :=
  [{ processor := some [InstructionSet.IntelMmx, InstructionSet.IntelSse] }]

/-! ## Definitions used by the statements -/

/-- What the start button guard depends on: the record type box, the
selection of the process table and the enabled flag of the start button. -/
def guardView (page : RecordPage) : ComboBox Int × List ModelIndex × Bool :=
  (page.recordTypeComboBox, page.selectedIndexes, page.startRecordingButtonEnabled)

/-- The guard: in attach mode with nothing selected the start button is disabled. -/
def attachGuard (page : RecordPage) : Prop :=
  page.recordTypeComboBox.items =
      [(tr "Launch Application", LaunchApplication),
       (tr "Attach To Process(es)", AttachToProcess)] ∧
    (page.recordTypeComboBox.currentIndex = AttachToProcess →
      page.selectedIndexes = [] → page.startRecordingButtonEnabled = false)

/-- The page that the constructor returns on the blank form with one Intel
processor. -/
def builtPage : RecordPage :=
  (RecordPage.construct emptyEnv intelDevices blankForm).getD blankForm

/-- The built page in attach mode with two rows selected, each row with its
PID column and its name column. -/
def attachingPage : RecordPage :=
  { builtPage.handle emptyEnv (Event.recordTypeSelected AttachToProcess) with
    selectedIndexes :=
      [{ row := 3, column := 0, pid := tr "4711" }, { row := 3, column := 1, pid := tr "4711" },
       { row := 1, column := 0, pid := tr "42" }, { row := 1, column := 1, pid := tr "42" }] }

/-- The option list of a `record` call. -/
def Effect.recordedOptions : Effect → Option (List QString)
  | .recordLaunch perfOptions _ _ _ _ => some perfOptions
  | .recordAttach perfOptions _ _ => some perfOptions
  | _ => none

/-- One check of a field: whether it passes, and the message shown when it is
the first to fail. -/
structure Check where
  passes : Bool
  message : QString
  deriving DecidableEq, Repr

/-- The message of the first failing check of a list in priority order,
`none` when every check passes. -/
def firstFailure : List Check → Option QString
  | [] => none
  | check :: rest => if check.passes then firstFailure rest else some check.message

/-- The error panel as the spec words it: hidden when no check fails,
otherwise shown with the message of the first failing check. -/
def reportFirstFailure (checks : List Check) (page : RecordPage) : QString × Bool :=
  match firstFailure checks with
  | none => (page.applicationRecordErrorMessageText, false)
  | some message => (message, true)

/-- The error panel of a page: its text and whether it is shown. -/
def errorPanel (page : RecordPage) : QString × Bool :=
  (page.applicationRecordErrorMessageText, page.applicationRecordErrorMessageVisible)

/-- The checks of the output file as the spec words them: the parent folder
exists, is a directory, is writable, and the absolute file path ends with
".data". -/
def outputFileChecks (env : Env) (page : RecordPage) : List Check :=
  let file := (env.url page.outputFileText).toLocalFile
  let folder := env.absolutePath file
  [{ passes := env.fileExists folder
     message := arg (tr "Output file directory folder cannot be found: %1") (env.path folder) },
   { passes := env.isDir folder
     message := arg (tr "Output file directory folder is not valid: %1") (env.path folder) },
   { passes := env.isWritable folder
     message := arg (tr "Output file directory folder is not writable: %1") (env.path folder) },
   { passes := endsWith (env.absoluteFilePath file) (tr ".data")
     message := arg (tr "Output file must end with %1") (tr ".data") }]

/-- The checks of the working directory as the spec words them: it exists, is
a directory, is writable. -/
def workingDirectoryChecks (env : Env) (page : RecordPage) (folderPath : QString) :
    List Check :=
  let folder := (env.url page.workingDirectoryText).toLocalFile
  [{ passes := env.fileExists folder
     message := arg (tr "Working directory folder cannot be found: %1") folderPath },
   { passes := env.isDir folder
     message := arg (tr "Working directory folder is not valid: %1") folderPath },
   { passes := env.isWritable folder
     message := arg (tr "Working directory folder is not writable: %1") folderPath }]

/-- The checks of the application as the spec words them: it exists, directly
or as the executable found on the search path for the typed text; that file
is a file; it is executable. -/
def applicationChecks (env : Env) (page : RecordPage) (filePath : QString) : List Check :=
  let typed := (env.url page.applicationNameText).toLocalFile
  let found := env.findExecutable filePath
  let application := if env.fileExists typed then typed else found
  [{ passes := env.fileExists typed || env.fileExists found
     message := arg (tr "Application file cannot be found: %1") filePath },
   { passes := env.isFile application
     message := arg (tr "Application file is not valid: %1") filePath },
   { passes := env.isExecutable application
     message := arg (tr "Application file is not executable: %1") filePath }]

/-! ## Session mode: exactly one field group is visible -/

/-- C1. For an index that is `LaunchApplication` or `AttachToProcess` and any
prior page, the `currentIndexChanged` lambda leaves exactly one field group
visible: every widget of the launch group is visible exactly when the index
is `LaunchApplication`, every widget of the attach group exactly when it is
`AttachToProcess`. The constructor returns a page whenever the processor
list is not empty, and any page it returns has the launch group visible and
the attach group hidden. -/
theorem session_mode_shows_exactly_one_group (env : Env) (devices : List Device)
    (page form : RecordPage) (index : Int)
    (hindex : index = LaunchApplication ∨ index = AttachToProcess) :
    launchGroup (page.currentIndexChanged index) =
      List.replicate 6 (decide (index = LaunchApplication)) ∧
    attachGroup (page.currentIndexChanged index) =
      List.replicate 4 (decide (index = AttachToProcess)) ∧
    (decide (index = LaunchApplication) ≠ decide (index = AttachToProcess)) ∧
    (devices ≠ [] → (RecordPage.construct env devices form).isSome = true) ∧
    (∀ built, RecordPage.construct env devices form = some built →
      launchGroup built = List.replicate 6 true ∧
      attachGroup built = List.replicate 4 false) := by
  refine ⟨?_, ?_, ?_, ?_, ?_⟩
  · rcases hindex with h | h <;> subst h
    · simp [RecordPage.currentIndexChanged, setRecordApplicationVisibility,
        setRecordProcessesVisibility, launchGroup, LaunchApplication]
    · simp [RecordPage.currentIndexChanged, setRecordApplicationVisibility,
        setRecordProcessesVisibility, updateStartRecordingButtonState, launchGroup,
        LaunchApplication, AttachToProcess]
  · rcases hindex with h | h <;> subst h
    · simp [RecordPage.currentIndexChanged, setRecordApplicationVisibility,
        setRecordProcessesVisibility, attachGroup, LaunchApplication, AttachToProcess]
    · simp [RecordPage.currentIndexChanged, setRecordApplicationVisibility,
        setRecordProcessesVisibility, updateStartRecordingButtonState, attachGroup,
        LaunchApplication, AttachToProcess]
      split <;> simp
  · rcases hindex with h | h <;> subst h <;> simp [LaunchApplication, AttachToProcess]
  · intro hne
    cases devices with
    | nil => exact absurd rfl hne
    | cons d ds =>
      simp only [RecordPage.construct, isIntel]
      simp
      split <;> simp
  · intro built hbuilt
    cases devices with
    | nil => simp [RecordPage.construct, isIntel] at hbuilt
    | cons d ds =>
      simp only [RecordPage.construct, isIntel] at hbuilt
      simp at hbuilt
      split at hbuilt
      all_goals
        simp at hbuilt
        subst hbuilt
        simp [RecordPage.showRecordPage, RecordPage.updateProcesses,
          setRecordApplicationVisibility, setRecordProcessesVisibility, launchGroup, attachGroup]

/-- C1 at a concrete page: switching the blank form to `AttachToProcess`
hides the launch group and shows the attach group, and the constructor run on
the blank form with one Intel processor returns a page. -/
theorem session_mode_shows_exactly_one_group_witness :
    (AttachToProcess = LaunchApplication ∨ AttachToProcess = AttachToProcess) ∧
    launchGroup (blankForm.currentIndexChanged AttachToProcess) = List.replicate 6 false ∧
    attachGroup (blankForm.currentIndexChanged AttachToProcess) = List.replicate 4 true ∧
    (RecordPage.construct emptyEnv intelDevices blankForm).isSome = true ∧
    launchGroup builtPage = List.replicate 6 true ∧
    attachGroup builtPage = List.replicate 4 false :=
  have h := session_mode_shows_exactly_one_group emptyEnv intelDevices blankForm blankForm
    AttachToProcess (Or.inr rfl)
  ⟨Or.inr rfl, h.1, h.2.1, h.2.2.2.1 (by decide), h.2.2.2.2 builtPage (by decide)⟩

/-! ## Output file: the extension is appended once -/

/-- The extension is a suffix of every text it was appended to. -/
theorem endsWith_append (s ext : QString) : endsWith (s ++ ext) ext = true := by
  simp [endsWith]

/-- The validation slot of the output file does not touch the text. -/
theorem onOutputFileNameChanged_outputFileText (env : Env) (page : RecordPage)
    (filePath : QString) :
    (page.onOutputFileNameChanged env filePath).outputFileText = page.outputFileText := by
  unfold RecordPage.onOutputFileNameChanged
  simp only []
  split_ifs <;> rfl

/-- After `setText` the requester shows the text. -/
theorem setOutputFileText_outputFileText (env : Env) (page : RecordPage) (text : QString) :
    (page.setOutputFileText env text).outputFileText = text := by
  unfold RecordPage.setOutputFileText
  split_ifs with h
  · exact h
  · rw [onOutputFileNameChanged_outputFileText]

/-- The selection slot is the identity on a path that has the extension. -/
theorem onOutputFileNameSelected_of_endsWith (env : Env) (page : RecordPage)
    (filePath : QString) (h : endsWith filePath (tr ".data") = true) :
    page.onOutputFileNameSelected env filePath = page := by
  simp [RecordPage.onOutputFileNameSelected, h]

/-- The selection slot sets the text on a path that lacks the extension. -/
theorem onOutputFileNameSelected_of_not_endsWith (env : Env) (page : RecordPage)
    (filePath : QString) (h : endsWith filePath (tr ".data") = false) :
    page.onOutputFileNameSelected env filePath =
      page.setOutputFileText env (filePath ++ tr ".data") := by
  simp [RecordPage.onOutputFileNameSelected, h]

/-- C2. For every path `p` and page, `onOutputFileNameSelected p` leaves the
page as it is when `p` ends with ".data" and otherwise leaves the text
`p ++ ".data"`; `onOutputFileUrlChanged` does the same with the local file
of its URL. On a page whose field shows `p`, which is what `returnPressed`
and `urlSelected` deliver to the slot, feeding the resulting text back
changes nothing. On every page the slot leaves alone a path that has the
extension and, when it has appended, feeding the resulting text back changes
nothing: the extension is never appended twice. -/
theorem outputFileNameSelected_appends_once (env : Env) (page : RecordPage) (p : QString)
    (fileUrl : QUrl) :
    (if endsWith p (tr ".data") then page.onOutputFileNameSelected env p = page
      else (page.onOutputFileNameSelected env p).outputFileText = p ++ tr ".data") ∧
    page.onOutputFileUrlChanged env fileUrl =
      page.onOutputFileNameSelected env fileUrl.toLocalFile ∧
    (({ page with outputFileText := p } : RecordPage).onOutputFileNameSelected env
        p).onOutputFileNameSelected env
        (({ page with outputFileText := p } : RecordPage).onOutputFileNameSelected env
          p).outputFileText =
      ({ page with outputFileText := p } : RecordPage).onOutputFileNameSelected env p ∧
    endsWith (({ page with outputFileText := p } : RecordPage).onOutputFileNameSelected env
      p).outputFileText (tr ".data") = true ∧
    (endsWith p (tr ".data") = true ∨
      (page.onOutputFileNameSelected env p).onOutputFileNameSelected env
        (page.onOutputFileNameSelected env p).outputFileText =
        page.onOutputFileNameSelected env p) := by
  have appended : ∀ (q : RecordPage) (r : QString), endsWith r (tr ".data") = false →
      (q.onOutputFileNameSelected env r).onOutputFileNameSelected env
        (q.onOutputFileNameSelected env r).outputFileText =
        q.onOutputFileNameSelected env r := by
    intro q r hr
    rw [onOutputFileNameSelected_of_not_endsWith env q r hr, setOutputFileText_outputFileText]
    exact onOutputFileNameSelected_of_endsWith env _ _ (endsWith_append r (tr ".data"))
  refine ⟨?_, rfl, ?_, ?_, ?_⟩
  · cases hp : endsWith p (tr ".data")
    · simp [onOutputFileNameSelected_of_not_endsWith, hp, setOutputFileText_outputFileText]
    · simp [onOutputFileNameSelected_of_endsWith, hp]
  · cases hp : endsWith p (tr ".data")
    · exact appended _ p hp
    · rw [onOutputFileNameSelected_of_endsWith env _ p hp]
      exact onOutputFileNameSelected_of_endsWith env _ p hp
  · cases hp : endsWith p (tr ".data")
    · rw [onOutputFileNameSelected_of_not_endsWith env _ p hp, setOutputFileText_outputFileText]
      exact endsWith_append p (tr ".data")
    · rw [onOutputFileNameSelected_of_endsWith env _ p hp]
      exact hp
  · cases hp : endsWith p (tr ".data")
    · exact Or.inr (appended page p hp)
    · exact Or.inl rfl

/-! ## Attach mode with an empty selection keeps the start button disabled -/

/-- The toggle slot leaves the guard view alone. -/
theorem guardView_onStartRecordingButtonClicked (env : Env) (page : RecordPage)
    (checked : Bool) :
    guardView (page.onStartRecordingButtonClicked env checked) = guardView page := by
  unfold RecordPage.onStartRecordingButtonClicked
  cases checked
  · rfl
  · simp only [if_true]
    split_ifs <;> rfl

/-- Checking or unchecking the start button leaves the guard view alone. -/
theorem guardView_setChecked (env : Env) (page : RecordPage) (checked : Bool) :
    guardView (page.setChecked env checked) = guardView page := by
  unfold RecordPage.setChecked
  split_ifs
  · rfl
  · rw [guardView_onStartRecordingButtonClicked]
    rfl

/-- The validation slot of the output file leaves the guard view alone. -/
theorem guardView_onOutputFileNameChanged (env : Env) (page : RecordPage)
    (filePath : QString) :
    guardView (page.onOutputFileNameChanged env filePath) = guardView page := by
  unfold RecordPage.onOutputFileNameChanged
  simp only []
  split_ifs <;> rfl

/-- Setting the output file text leaves the guard view alone. -/
theorem guardView_setOutputFileText (env : Env) (page : RecordPage) (text : QString) :
    guardView (page.setOutputFileText env text) = guardView page := by
  unfold RecordPage.setOutputFileText
  split_ifs
  · rfl
  · rw [guardView_onOutputFileNameChanged]
    rfl

/-- The selection slot of the output file leaves the guard view alone. -/
theorem guardView_onOutputFileNameSelected (env : Env) (page : RecordPage)
    (filePath : QString) :
    guardView (page.onOutputFileNameSelected env filePath) = guardView page := by
  unfold RecordPage.onOutputFileNameSelected
  simp only []
  split_ifs
  · exact guardView_setOutputFileText env page _
  · rfl

/-- The validation slot of the application leaves the guard view alone. -/
theorem guardView_onApplicationNameChanged (env : Env) (page : RecordPage)
    (filePath : QString) :
    guardView (page.onApplicationNameChanged env filePath) = guardView page := by
  unfold RecordPage.onApplicationNameChanged
  simp only []
  split_ifs <;> rfl

/-- The validation slot of the working directory leaves the guard view alone. -/
theorem guardView_onWorkingDirectoryNameChanged (env : Env) (page : RecordPage)
    (folderPath : QString) :
    guardView (page.onWorkingDirectoryNameChanged env folderPath) = guardView page := by
  unfold RecordPage.onWorkingDirectoryNameChanged
  simp only []
  split_ifs <;> rfl

/-- The guard only looks at the guard view. -/
theorem attachGuard_of_guardView {page next : RecordPage}
    (h : guardView next = guardView page) (hg : attachGuard page) : attachGuard next := by
  simp only [guardView, Prod.mk.injEq] at h
  obtain ⟨h1, h2, h3⟩ := h
  simpa [attachGuard, h1, h2, h3] using hg

/-- The helper `updateStartRecordingButtonState` writes the enabled flag only. -/
theorem updateStartRecordingButtonState_eq (ui : RecordPage) :
    updateStartRecordingButtonState ui =
      { ui with startRecordingButtonEnabled := decide (ui.selectedIndexes ≠ []) } := by
  unfold updateStartRecordingButtonState
  cases h : ui.selectedIndexes <;> simp

/-- The constructor establishes the guard on a form without record types. -/
theorem attachGuard_construct (env : Env) (devices : List Device) (form page : RecordPage)
    (hform : form.recordTypeComboBox.items = [])
    (hpage : RecordPage.construct env devices form = some page) : attachGuard page := by
  cases hintel : isIntel devices with
  | none => simp [RecordPage.construct, hintel] at hpage
  | some intel =>
    simp [RecordPage.construct, hintel] at hpage
    subst hpage
    cases intel <;>
      simp [attachGuard, RecordPage.showRecordPage, RecordPage.updateProcesses,
        setRecordApplicationVisibility, setRecordProcessesVisibility, ComboBox.addItem, hform,
        AttachToProcess, LaunchApplication]

/-- Every event preserves the guard. -/
theorem attachGuard_handle (env : Env) (page : RecordPage) (event : Event)
    (hg : attachGuard page) : attachGuard (page.handle env event) := by
  cases event with
  | recordTypeSelected index =>
    obtain ⟨hitems, -⟩ := hg
    simp only [RecordPage.handle, RecordPage.currentIndexChanged]
    split_ifs with h0 h1
    · subst h0
      simp [attachGuard, setRecordApplicationVisibility, setRecordProcessesVisibility,
        ComboBox.setCurrentIndex, hitems, LaunchApplication, AttachToProcess]
    · subst h1
      simp [attachGuard, setRecordApplicationVisibility, setRecordProcessesVisibility,
        updateStartRecordingButtonState_eq, ComboBox.setCurrentIndex, hitems]
    · simp [attachGuard, ComboBox.setCurrentIndex, hitems, h1]
  | processTableClicked selection =>
    obtain ⟨hitems, -⟩ := hg
    simp [RecordPage.handle, RecordPage.clicked, attachGuard,
      updateStartRecordingButtonState_eq, hitems]
  | processListFinished result =>
    obtain ⟨hitems, -⟩ := hg
    simp [RecordPage.handle, RecordPage.updateProcessesFinished, attachGuard,
      updateStartRecordingButtonState_eq, hitems]
  | processListTimeout => exact attachGuard_of_guardView rfl hg
  | startButtonToggled => exact attachGuard_of_guardView (guardView_setChecked env page _) hg
  | recordingFinished fileLocation =>
    refine attachGuard_of_guardView ?_ hg
    exact (guardView_setChecked env page false)
  | recordingFailed errorMessage =>
    refine attachGuard_of_guardView ?_ hg
    exact (guardView_setChecked env page false)
  | recordingOutput outputMessage => exact attachGuard_of_guardView rfl hg
  | applicationNameEdited text =>
    exact attachGuard_of_guardView (guardView_onApplicationNameChanged env _ _) hg
  | workingDirectoryEdited text =>
    exact attachGuard_of_guardView (guardView_onWorkingDirectoryNameChanged env _ _) hg
  | outputFileEdited text =>
    exact attachGuard_of_guardView (guardView_setOutputFileText env _ _) hg
  | outputFileNameSelected filePath =>
    exact attachGuard_of_guardView (guardView_onOutputFileNameSelected env _ _) hg
  | outputFileUrlSelected fileUrl =>
    exact attachGuard_of_guardView (guardView_onOutputFileNameSelected env _ _) hg
  | viewResultsClicked => exact attachGuard_of_guardView rfl hg

/-- With the two record types of the constructor in the box, the current data
is `AttachToProcess` only at index 1. -/
theorem currentIndex_of_currentData_attach (box : ComboBox Int)
    (hitems : box.items =
      [(tr "Launch Application", LaunchApplication),
       (tr "Attach To Process(es)", AttachToProcess)])
    (hdata : box.currentData = some AttachToProcess) : box.currentIndex = AttachToProcess := by
  unfold ComboBox.currentData at hdata
  rw [hitems] at hdata
  split_ifs at hdata with hnonneg
  obtain ⟨n, hn⟩ := Int.eq_ofNat_of_zero_le hnonneg
  rw [hn] at hdata ⊢
  simp only [Int.toNat_ofNat] at hdata
  match n, hdata with
  | 0, hdata => simp [LaunchApplication, AttachToProcess] at hdata
  | 1, _ => rfl
  | n + 2, hdata => simp at hdata

/-- The guard holds in every reachable page. -/
theorem attachGuard_of_reachable (env : Env) (page : RecordPage)
    (hreach : Reachable env page) : attachGuard page := by
  induction hreach with
  | constructed devices form page hform hpage =>
    exact attachGuard_construct env devices form page hform hpage
  | handled page event _ ih => exact attachGuard_handle env page event ih

/-- C3. In every page reachable from the constructor by the handlers of the
page (record type change, click on the process table, refresh completion,
start toggle, recorder notifications, edits of the fields, view results),
whenever the session mode is `AttachToProcess` and no index is selected, the
start button is disabled. -/
theorem attach_mode_empty_selection_disables_start (env : Env) (page : RecordPage)
    (hreach : Reachable env page)
    (hmode : page.recordTypeComboBox.currentData = some AttachToProcess)
    (hsel : page.selectedIndexes = []) :
    page.startRecordingButtonEnabled = false :=
  (attachGuard_of_reachable env page hreach).2
    (currentIndex_of_currentData_attach _ (attachGuard_of_reachable env page hreach).1 hmode) hsel

/-- C3 at a concrete page: the constructed page switched to attach mode is
reachable, in attach mode, without selection, and its start button is
disabled. -/
theorem attach_mode_empty_selection_disables_start_witness :
    Reachable emptyEnv (builtPage.handle emptyEnv (Event.recordTypeSelected AttachToProcess)) ∧
    (builtPage.handle emptyEnv
      (Event.recordTypeSelected AttachToProcess)).recordTypeComboBox.currentData =
        some AttachToProcess ∧
    (builtPage.handle emptyEnv (Event.recordTypeSelected AttachToProcess)).selectedIndexes = [] ∧
    (builtPage.handle emptyEnv
      (Event.recordTypeSelected AttachToProcess)).startRecordingButtonEnabled = false :=
  have hreach : Reachable emptyEnv
      (builtPage.handle emptyEnv (Event.recordTypeSelected AttachToProcess)) :=
    Reachable.handled builtPage _
      (Reachable.constructed intelDevices blankForm builtPage rfl (by decide))
  ⟨hreach, by decide, by decide,
    attach_mode_empty_selection_disables_start emptyEnv _ hreach (by decide) (by decide)⟩

/-! ## Recorder notifications -/

/-- C4. For every message and every page whose start button is checked, after
`recordingFailed` the start button is unchecked, the slot of the toggle has
restored the start icon and the "Start Recording" label and has requested
`stopRecording` (the only call made), the error panel is visible with exactly
the message as its text, and the view results button is disabled. -/
theorem recordingFailed_returns_to_idle (env : Env) (page : RecordPage)
    (errorMessage : QString) (hchecked : page.startRecordingButtonChecked = true) :
    (page.recordingFailed env errorMessage).startRecordingButtonChecked = false ∧
    (page.recordingFailed env errorMessage).startRecordingButtonText = tr "Start Recording" ∧
    (page.recordingFailed env errorMessage).startRecordingButtonIcon =
      tr "media-playback-start" ∧
    (page.recordingFailed env errorMessage).log = page.log ++ [Effect.stopRecording] ∧
    (page.recordingFailed env errorMessage).applicationRecordErrorMessageVisible = true ∧
    (page.recordingFailed env errorMessage).applicationRecordErrorMessageText = errorMessage ∧
    (page.recordingFailed env errorMessage).viewPerfRecordResultsButtonEnabled = false := by
  simp [RecordPage.recordingFailed, RecordPage.setChecked,
    RecordPage.onStartRecordingButtonClicked, hchecked]

/-- C4 at a concrete page: a failure reported while the built page records. -/
theorem recordingFailed_returns_to_idle_witness :
    ({ builtPage with startRecordingButtonChecked := true } : RecordPage).startRecordingButtonChecked
      = true ∧
    (({ builtPage with startRecordingButtonChecked := true } : RecordPage).recordingFailed
      emptyEnv (tr "perf not found")).startRecordingButtonChecked = false ∧
    (({ builtPage with startRecordingButtonChecked := true } : RecordPage).recordingFailed
      emptyEnv (tr "perf not found")).applicationRecordErrorMessageText = tr "perf not found" :=
  have h := recordingFailed_returns_to_idle emptyEnv
    { builtPage with startRecordingButtonChecked := true } (tr "perf not found") rfl
  ⟨rfl, h.1, h.2.2.2.2.2.1⟩

/-- The toggle slot with `true` clears the result path and disables the view
results button, and then makes one call, a `record`. -/
theorem onStartRecordingButtonClicked_true_clears (env : Env) (page : RecordPage) :
    ∃ (before : RecordPage) (call : Effect),
      page.onStartRecordingButtonClicked env true =
        { before with log := before.log ++ [call] } ∧
      before.m_resultsFile = [] ∧ before.viewPerfRecordResultsButtonEnabled = false ∧
      before.log = page.log ∧
      (call = Effect.recordLaunch (perfOptions page) (env.url page.outputFileText).toLocalFile
          (env.url page.applicationNameText).toLocalFile
          (env.splitArgs page.applicationParametersBoxText)
          (env.url page.workingDirectoryText).toLocalFile ∨
        call = Effect.recordAttach (perfOptions page) (env.url page.outputFileText).toLocalFile
          (selectedPids page.selectedIndexes)) := by
  by_cases hmode : page.recordTypeComboBox.currentData = some LaunchApplication
  · refine ⟨{ page.showRecordPage with
        startRecordingButtonIcon := tr "media-playback-stop"
        startRecordingButtonText := tr "Stop Recording" }, _, ?_, rfl, rfl, rfl, Or.inl rfl⟩
    simp [RecordPage.onStartRecordingButtonClicked, RecordPage.showRecordPage, hmode,
      perfOptions]
  · refine ⟨{ page.showRecordPage with
        startRecordingButtonIcon := tr "media-playback-stop"
        startRecordingButtonText := tr "Stop Recording" }, _, ?_, rfl, rfl, rfl, Or.inr rfl⟩
    simp [RecordPage.onStartRecordingButtonClicked, RecordPage.showRecordPage, hmode,
      perfOptions]

/-- C5. For every file location, after `recordingFinished` the stored result
path is that location, the start button is unchecked, the error panel is
hidden and the view results button is enabled, and a click on view results
emits `openFile` with that location. For every page, the toggle slot with
`true` has cleared the stored path and disabled the view results button when
it makes its one call to the recorder, and leaves them so: a click on view
results then emits `openFile` with the empty path. -/
theorem recordingFinished_sets_result_and_start_clears (env : Env) (page other : RecordPage)
    (fileLocation : QString) :
    (page.recordingFinished env fileLocation).m_resultsFile = fileLocation ∧
    (page.recordingFinished env fileLocation).startRecordingButtonChecked = false ∧
    (page.recordingFinished env fileLocation).applicationRecordErrorMessageVisible = false ∧
    (page.recordingFinished env fileLocation).viewPerfRecordResultsButtonEnabled = true ∧
    (page.recordingFinished env fileLocation).onViewPerfRecordResultsButtonClicked.log =
      (page.recordingFinished env fileLocation).log ++ [Effect.openFile fileLocation] ∧
    (∃ (before : RecordPage) (call : Effect),
      other.onStartRecordingButtonClicked env true =
        { before with log := before.log ++ [call] } ∧
      before.m_resultsFile = [] ∧ before.viewPerfRecordResultsButtonEnabled = false ∧
      before.log = other.log ∧ call ≠ Effect.stopRecording) ∧
    (other.onStartRecordingButtonClicked env true).m_resultsFile = [] ∧
    (other.onStartRecordingButtonClicked env true).viewPerfRecordResultsButtonEnabled = false ∧
    (other.onStartRecordingButtonClicked env true).onViewPerfRecordResultsButtonClicked.log =
      (other.onStartRecordingButtonClicked env true).log ++ [Effect.openFile []] := by
  obtain ⟨before, call, hstart, hfile, hview, hlog, hcall⟩ :=
    onStartRecordingButtonClicked_true_clears env other
  have hchecked : (page.setChecked env false).startRecordingButtonChecked = false := by
    unfold RecordPage.setChecked
    split_ifs with h
    · exact h
    · simp [RecordPage.onStartRecordingButtonClicked]
  refine ⟨rfl, ?_, rfl, rfl, rfl, ⟨before, call, hstart, hfile, hview, hlog, ?_⟩, ?_, ?_, ?_⟩
  · simpa [RecordPage.recordingFinished] using hchecked
  · rcases hcall with h | h <;> simp [h]
  · simp [hstart, hfile]
  · simp [hstart, hview]
  · simp [RecordPage.onViewPerfRecordResultsButtonClicked, hstart, hfile]

/-! ## Starting and stopping the recorder -/

/-- The loop over the selection collects, in selection order, the PID of each
selected index of column 0. -/
theorem selectedPids_eq (selectedIndexes : List ModelIndex) :
    selectedPids selectedIndexes =
      (selectedIndexes.filter (fun item => decide (item.column = 0))).map ModelIndex.pid := by
  have h : ∀ (items : List ModelIndex) (pids : List QString),
      items.foldl (fun pids item => if item.column = 0 then pids ++ [item.pid] else pids) pids =
        pids ++ (items.filter (fun item => decide (item.column = 0))).map ModelIndex.pid := by
    intro items
    induction items with
    | nil => intro pids; simp
    | cons item rest ih =>
      intro pids
      by_cases hc : item.column = 0 <;> simp [List.foldl_cons, ih, hc]
  simpa [selectedPids] using h selectedIndexes []

/-- C6. For every page, the toggle slot with `true` makes exactly one call,
a `record`, of the shape of the session mode selected at that moment: in
`LaunchApplication` the launch form with output path, application path,
split arguments and working directory; in `AttachToProcess` the pid form
with the PIDs of exactly the selected indexes of column 0, in selection
order. The toggle slot with `false` makes exactly one call, `stopRecording`. -/
theorem start_uses_shape_of_session_mode (env : Env) (page : RecordPage) :
    (∃ call, (page.onStartRecordingButtonClicked env true).log = page.log ++ [call] ∧
      call.recordedOptions.isSome = true) ∧
    (page.recordTypeComboBox.currentData = some LaunchApplication →
      (page.onStartRecordingButtonClicked env true).log = page.log ++
        [Effect.recordLaunch (perfOptions page) (env.url page.outputFileText).toLocalFile
          (env.url page.applicationNameText).toLocalFile
          (env.splitArgs page.applicationParametersBoxText)
          (env.url page.workingDirectoryText).toLocalFile]) ∧
    (page.recordTypeComboBox.currentData = some AttachToProcess →
      (page.onStartRecordingButtonClicked env true).log = page.log ++
        [Effect.recordAttach (perfOptions page) (env.url page.outputFileText).toLocalFile
          ((page.selectedIndexes.filter (fun item => decide (item.column = 0))).map
            ModelIndex.pid)]) ∧
    (page.onStartRecordingButtonClicked env false).log = page.log ++ [Effect.stopRecording] := by
  refine ⟨?_, ?_, ?_, rfl⟩
  · obtain ⟨before, call, hstart, -, -, hlog, hcall⟩ :=
      onStartRecordingButtonClicked_true_clears env page
    refine ⟨call, by simp [hstart, hlog], ?_⟩
    rcases hcall with h | h <;> simp [h, Effect.recordedOptions]
  · intro hmode
    simp [RecordPage.onStartRecordingButtonClicked, RecordPage.showRecordPage, hmode,
      perfOptions]
  · intro hmode
    simp [RecordPage.onStartRecordingButtonClicked, RecordPage.showRecordPage, hmode,
      perfOptions, selectedPids_eq, LaunchApplication, AttachToProcess]

/-- C6 at concrete pages: the built page launches, the attaching page
passes its two PIDs. -/
theorem start_uses_shape_of_session_mode_witness :
    (builtPage.onStartRecordingButtonClicked emptyEnv true).log = builtPage.log ++
      [Effect.recordLaunch [tr "--call-graph", tr "dwarf"] (tr "/tmp/perf.data") [] []
        (tr "/tmp")] ∧
    (attachingPage.onStartRecordingButtonClicked emptyEnv true).log = attachingPage.log ++
      [Effect.recordAttach [tr "--call-graph", tr "dwarf"] (tr "/tmp/perf.data")
        [tr "4711", tr "42"]] :=
  ⟨(start_uses_shape_of_session_mode emptyEnv builtPage).2.1 (by decide),
   (start_uses_shape_of_session_mode emptyEnv attachingPage).2.2.1 (by decide)⟩

/-- C8. For every page, with `c` the current data of the call graph box as a
string and `e` the text of the event type box, the one call that the toggle
slot with `true` makes is a `record` whose option list is
`["--call-graph", c]` when `c` is not empty, followed by `["--event", e]`
when `e` is not empty, whatever the session mode. -/
theorem start_passes_call_graph_and_event_options (env : Env) (page : RecordPage) :
    ∃ call, (page.onStartRecordingButtonClicked env true).log = page.log ++ [call] ∧
      call.recordedOptions = some
        ((if page.callGraphComboBox.currentData.getD [] ≠ []
            then [tr "--call-graph", page.callGraphComboBox.currentData.getD []] else []) ++
         (if page.eventTypeBoxText ≠ [] then [tr "--event", page.eventTypeBoxText] else [])) := by
  have hopts : perfOptions page =
      (if page.callGraphComboBox.currentData.getD [] ≠ []
          then [tr "--call-graph", page.callGraphComboBox.currentData.getD []] else []) ++
        (if page.eventTypeBoxText ≠ [] then [tr "--event", page.eventTypeBoxText] else []) := by
    unfold perfOptions
    cases hc : page.callGraphComboBox.currentData.getD [] <;>
      cases he : page.eventTypeBoxText <;> simp
  by_cases hmode : page.recordTypeComboBox.currentData = some LaunchApplication
  · refine ⟨Effect.recordLaunch (perfOptions page) (env.url page.outputFileText).toLocalFile
      (env.url page.applicationNameText).toLocalFile
      (env.splitArgs page.applicationParametersBoxText)
      (env.url page.workingDirectoryText).toLocalFile, ?_, ?_⟩
    · simp [RecordPage.onStartRecordingButtonClicked, RecordPage.showRecordPage, hmode,
        perfOptions]
    · simp only [Effect.recordedOptions, hopts]
  · refine ⟨Effect.recordAttach (perfOptions page) (env.url page.outputFileText).toLocalFile
      (selectedPids page.selectedIndexes), ?_, ?_⟩
    · simp [RecordPage.onStartRecordingButtonClicked, RecordPage.showRecordPage, hmode,
        perfOptions]
    · simp only [Effect.recordedOptions, hopts]

/-! ## Refresh of the process list -/

/-- C9. For every page and every merge, after `updateProcessesFinished` the
start button is enabled exactly when an index is selected after the merge,
whatever the session mode: also right after the `currentIndexChanged` lambda
ran for `LaunchApplication` and enabled the button. -/
theorem refresh_enables_start_iff_selection (env : Env) (page : RecordPage)
    (result : List ProcData) :
    (page.updateProcessesFinished env result).selectedIndexes =
      (env.mergeProcesses page.processes result page.selectedIndexes).2 ∧
    ((page.updateProcessesFinished env result).startRecordingButtonEnabled = true ↔
      (page.updateProcessesFinished env result).selectedIndexes.length > 0) ∧
    (page.currentIndexChanged LaunchApplication).startRecordingButtonEnabled = true ∧
    (((page.currentIndexChanged LaunchApplication).updateProcessesFinished env
        result).startRecordingButtonEnabled = true ↔
      ((page.currentIndexChanged LaunchApplication).updateProcessesFinished env
        result).selectedIndexes.length > 0) := by
  have h : ∀ q : RecordPage,
      ((q.updateProcessesFinished env result).startRecordingButtonEnabled = true ↔
        (q.updateProcessesFinished env result).selectedIndexes.length > 0) := by
    intro q
    simp [RecordPage.updateProcessesFinished, updateStartRecordingButtonState_eq,
      List.length_pos]
  refine ⟨?_, h page, ?_, h _⟩
  · simp [RecordPage.updateProcessesFinished, updateStartRecordingButtonState_eq]
  · simp [RecordPage.currentIndexChanged, setRecordApplicationVisibility,
      setRecordProcessesVisibility]

/-! ## Processor query -/

/-- C10, the code at the failing input: on the empty device list `isIntel`
reads `list[0]` before it tests `list.empty()`, so the read is out of range
and no result is returned, neither by `isIntel` nor by the constructor that
calls it. On a list whose first device is not a processor the result is
`false`. -/
theorem isIntel_empty_list_out_of_range (env : Env) (form : RecordPage)
    (rest : List Device) :
    isIntel [] = none ∧ ¬ (isIntel [] = some false) ∧
    RecordPage.construct env [] form = none ∧
    isIntel ({ processor := none } :: rest) = some false := by
  refine ⟨rfl, by simp [isIntel], rfl, by simp [isIntel]⟩

/-! ## Validation: the first failing check decides the error panel -/

/-- The panel is reported hidden exactly when every check passes. -/
theorem reportFirstFailure_hidden_iff (checks : List Check) (page : RecordPage) :
    (reportFirstFailure checks page).2 = false ↔ ∀ check ∈ checks, check.passes = true := by
  induction checks with
  | nil => simp [reportFirstFailure, firstFailure]
  | cons check rest ih =>
    cases hpass : check.passes
    · simp [reportFirstFailure, firstFailure, hpass]
    · simpa [reportFirstFailure, firstFailure, hpass] using ih

/-- The output file slot reports the first failing check of the output file. -/
theorem errorPanel_onOutputFileNameChanged (env : Env) (page : RecordPage)
    (filePath : QString) :
    errorPanel (page.onOutputFileNameChanged env filePath) =
      reportFirstFailure (outputFileChecks env page) page := by
  unfold RecordPage.onOutputFileNameChanged outputFileChecks
  simp only []
  cases env.fileExists (env.absolutePath (env.url page.outputFileText).toLocalFile) <;>
  cases env.isDir (env.absolutePath (env.url page.outputFileText).toLocalFile) <;>
  cases env.isWritable (env.absolutePath (env.url page.outputFileText).toLocalFile) <;>
  cases endsWith (env.absoluteFilePath (env.url page.outputFileText).toLocalFile) (tr ".data") <;>
  simp [errorPanel, reportFirstFailure, firstFailure]

/-- The working directory slot reports the first failing check of the folder. -/
theorem errorPanel_onWorkingDirectoryNameChanged (env : Env) (page : RecordPage)
    (folderPath : QString) :
    errorPanel (page.onWorkingDirectoryNameChanged env folderPath) =
      reportFirstFailure (workingDirectoryChecks env page folderPath) page := by
  unfold RecordPage.onWorkingDirectoryNameChanged workingDirectoryChecks
  simp only []
  cases env.fileExists (env.url page.workingDirectoryText).toLocalFile <;>
  cases env.isDir (env.url page.workingDirectoryText).toLocalFile <;>
  cases env.isWritable (env.url page.workingDirectoryText).toLocalFile <;>
  simp [errorPanel, reportFirstFailure, firstFailure]

/-- The application slot reports the first failing check of the application. -/
theorem errorPanel_onApplicationNameChanged (env : Env) (page : RecordPage)
    (filePath : QString) :
    errorPanel (page.onApplicationNameChanged env filePath) =
      reportFirstFailure (applicationChecks env page filePath) page := by
  unfold RecordPage.onApplicationNameChanged applicationChecks
  simp only []
  cases htyped : env.fileExists (env.url page.applicationNameText).toLocalFile
  · cases hfound : env.fileExists (env.findExecutable filePath) <;>
    cases hfile : env.isFile (env.findExecutable filePath) <;>
    cases hexe : env.isExecutable (env.findExecutable filePath) <;>
    simp [errorPanel, reportFirstFailure, firstFailure, htyped, hfound, hfile, hexe]
    all_goals split_ifs <;> rfl
  · cases hfile : env.isFile (env.url page.applicationNameText).toLocalFile <;>
    cases hexe : env.isExecutable (env.url page.applicationNameText).toLocalFile <;>
    simp [errorPanel, reportFirstFailure, firstFailure, htyped, hfile, hexe]
    all_goals split_ifs <;> rfl

/-- C7. For each validation slot, with the file system as predicates of the
environment, the error panel after the slot is what the first failing check
decides: hidden (text untouched) when every check of the field passes,
otherwise shown with the message of the first failing check in the order
existence, type, permission, extension; and it is hidden exactly when every
check passes. -/
theorem validation_reports_first_failing_check (env : Env) (page : RecordPage)
    (text : QString) :
    errorPanel (page.onOutputFileNameChanged env text) =
      reportFirstFailure (outputFileChecks env page) page ∧
    ((page.onOutputFileNameChanged env text).applicationRecordErrorMessageVisible = false ↔
      ∀ check ∈ outputFileChecks env page, check.passes = true) ∧
    errorPanel (page.onWorkingDirectoryNameChanged env text) =
      reportFirstFailure (workingDirectoryChecks env page text) page ∧
    ((page.onWorkingDirectoryNameChanged env text).applicationRecordErrorMessageVisible = false ↔
      ∀ check ∈ workingDirectoryChecks env page text, check.passes = true) ∧
    errorPanel (page.onApplicationNameChanged env text) =
      reportFirstFailure (applicationChecks env page text) page ∧
    ((page.onApplicationNameChanged env text).applicationRecordErrorMessageVisible = false ↔
      ∀ check ∈ applicationChecks env page text, check.passes = true) := by
  have h1 := errorPanel_onOutputFileNameChanged env page text
  have h2 := errorPanel_onWorkingDirectoryNameChanged env page text
  have h3 := errorPanel_onApplicationNameChanged env page text
  refine ⟨h1, ?_, h2, ?_, h3, ?_⟩
  · rw [← reportFirstFailure_hidden_iff _ page, ← h1]; rfl
  · rw [← reportFirstFailure_hidden_iff _ page, ← h2]; rfl
  · rw [← reportFirstFailure_hidden_iff _ page, ← h3]; rfl

/-- C7 at concrete pages: with "/tmp" as a writable folder every check of the
output file "/tmp/perf.data" passes and the panel is hidden; without any file
the working directory slot shows the message of the existence check. -/
theorem validation_reports_first_failing_check_witness :
    (∀ check ∈ outputFileChecks tmpEnv builtPage, check.passes = true) ∧
    (builtPage.onOutputFileNameChanged tmpEnv
      builtPage.outputFileText).applicationRecordErrorMessageVisible = false ∧
    errorPanel (builtPage.onWorkingDirectoryNameChanged emptyEnv (tr "/tmp")) =
      (tr "Working directory folder cannot be found: /tmp", true) :=
  ⟨by decide,
   (validation_reports_first_failing_check tmpEnv builtPage builtPage.outputFileText).2.1.mpr
     (by decide),
   (validation_reports_first_failing_check emptyEnv builtPage (tr "/tmp")).2.2.1.trans
     (by decide)⟩

end Hotspot
